import Mathlib

/-!
Shallow embedding of the risc0 host-side prover core
(`risc0/zkvm/src/prove/mod.rs`) and of the common envelope crate
(`risc0/common/src/lib.rs`).

Modelling conventions:
* Rust byte buffers (`Vec<u8>`, `&[u8]`, `&mut [u32]` viewed through
  `bytemuck::cast_slice_mut`) are `List Nat`, one entry per byte.
* Rust strings used as environment-variable keys/values are modelled directly
  as their UTF-8 byte sequences (`List Nat`); syscall names stay `String`.
* `HashMap` is an association list where insert replaces any previous binding
  and lookup finds the most recent insertion.
* Fallible Rust code returning `Result` is `Except String`; a Rust `panic!`
  or failed `assert!` (fatal abort) is modelled as `Except.error` as well.
* `u32` arithmetic is `Nat` with an explicit `% 2 ^ 32` where the source casts.
* Host-side effects that the claims quantify over (the RV32 executor, HAL
  commit/finalize, receipt verification, user syscall handlers, posix readers
  and writers, `getrandom`) are abstracted as explicit function parameters;
  the control flow around them is translated from the source.
-/

namespace Risc0

/-- Byte sequences (`Vec<u8>` / `&[u8]`): lists of byte values. -/
abbrev Bytes := List Nat

/-- `u32::MAX`. -/
def u32Max : Nat := 2 ^ 32 - 1

/-- `WORD_SIZE` from the platform crate: bytes per `u32` word. -/
def WORD_SIZE : Nat := 4

/-- Association-list lookup modelling `HashMap::get`. -/
def lookupAssoc {α β : Type} [DecidableEq α] : List (α × β) → α → Option β
  | [], _ => none
  | (k, v) :: rest, key => if k = key then some v else lookupAssoc rest key

/-- Association-list insert modelling `HashMap::insert`: replaces any previous
binding for the key. -/
def insertAssoc {α β : Type} [DecidableEq α] (k : α) (v : β) (l : List (α × β)) :
    List (α × β) :=
  (k, v) :: l.filter (fun p => decide (p.1 ≠ k))

/-! ## `risc0/common/src/lib.rs` -/

/-- `ZKVM_HASH_SHA256` from `common/src/lib.rs`. -/
def ZKVM_HASH_SHA256 : String := "sha256"

/-- `ZKVM_HASH_POSEIDON` from `common/src/lib.rs`. -/
def ZKVM_HASH_POSEIDON : String := "poseidon"

/-- `CommonErr` from `common/src/lib.rs`. The `bincode::ErrorKind` payload of
`BincodeErr` carries no information the claims use and is dropped. -/
inductive CommonErr where
  | InvalidHash (s : String)
  | InvalidDataType (s : String)
  | BincodeErr
deriving DecidableEq

/-- `Hashes` from `common/src/lib.rs`. -/
inductive Hashes where
  | Sha256
  | Poseidon
deriving DecidableEq

/-- `impl FromStr for Hashes`. -/
def Hashes.from_str (s : String) : Except CommonErr Hashes :=
  if s = ZKVM_HASH_SHA256 then .ok .Sha256
  else if s = ZKVM_HASH_POSEIDON then .ok .Poseidon
  else .error (.InvalidHash s)

/-- `impl ToString for Hashes`. -/
def Hashes.to_string : Hashes → String
  | .Sha256 => ZKVM_HASH_SHA256
  | .Poseidon => ZKVM_HASH_POSEIDON

/-- `BodyType` from `common/src/lib.rs`. -/
inductive BodyType where
  | Segment
  | Session
  | MemoryImage
  | SegmentReceipt
  | SessionReceipt
deriving DecidableEq

/-- `impl fmt::Display for BodyType`. -/
def BodyType.display : BodyType → String
  | .Segment => "Segment"
  | .Session => "Session"
  | .MemoryImage => "MemoryImage"
  | .SegmentReceipt => "SegmentReceipt"
  | .SessionReceipt => "SessionReceipt"

/-- `Envelope` from `common/src/lib.rs`; `MetaData` is its underlying map. -/
structure Envelope where
  metadata : List (String × String)
  body_type : BodyType
  body : Bytes
deriving DecidableEq

/-- The `declare_tryfrom_deserial!` macro from `common/src/lib.rs`:
`TryFrom<Envelope>` for the target type whose `BodyType` tag is `tag`, with
`decode` standing for `bincode::deserialize` at that target type. -/
def tryFromEnvelope {α : Type} (tag : BodyType) (decode : Bytes → Except String α)
    (value : Envelope) : Except CommonErr α :=
  if value.body_type ≠ tag then
    .error (.InvalidDataType value.body_type.display)
  else
    match decode value.body with
    | .ok res => .ok res
    | .error _ => .error .BincodeErr

/-! ## Platform constants (`risc0_zkvm_platform`, outside `src/`)

Modelled from the spec: the platform crate supplying `fileno` descriptor
numbers and `SyscallName` values is not under `src/`.  `SyscallName::as_str`
yields the full module path of the declaration, which is why
`ProverImpl::on_txrx` strips the `risc0_zkvm_platform::syscall::nr::` text
before matching built-ins. -/

/-- Modelled from the spec: `fileno::STDIN`. -/
def fileno_STDIN : Nat := 0

/-- Modelled from the spec: `fileno::STDOUT`. -/
def fileno_STDOUT : Nat := 1

/-- Modelled from the spec: `fileno::STDERR`. -/
def fileno_STDERR : Nat := 2

/-- Modelled from the spec: `fileno::JOURNAL`. -/
def fileno_JOURNAL : Nat := 3

/-- The module-path text stripped by `ProverImpl::on_txrx`. -/
def nrPre : List Char := "risc0_zkvm_platform::syscall::nr::".data

/-- Modelled from the spec: `SYS_CYCLE_COUNT.as_str()`. -/
def SYS_CYCLE_COUNT : String := "risc0_zkvm_platform::syscall::nr::SYS_CYCLE_COUNT"

/-- Modelled from the spec: `SYS_GETENV.as_str()`. -/
def SYS_GETENV : String := "risc0_zkvm_platform::syscall::nr::SYS_GETENV"

/-- Modelled from the spec: `SYS_LOG.as_str()`. -/
def SYS_LOG : String := "risc0_zkvm_platform::syscall::nr::SYS_LOG"

/-- Modelled from the spec: `SYS_PANIC.as_str()`. -/
def SYS_PANIC : String := "risc0_zkvm_platform::syscall::nr::SYS_PANIC"

/-- Modelled from the spec: `SYS_READ.as_str()`. -/
def SYS_READ : String := "risc0_zkvm_platform::syscall::nr::SYS_READ"

/-- Modelled from the spec: `SYS_READ_AVAIL.as_str()`. -/
def SYS_READ_AVAIL : String := "risc0_zkvm_platform::syscall::nr::SYS_READ_AVAIL"

/-- Modelled from the spec: `SYS_WRITE.as_str()`. -/
def SYS_WRITE : String := "risc0_zkvm_platform::syscall::nr::SYS_WRITE"

/-- `str::strip_prefix p s` as a list-of-char operation: `some rest` exactly
when `s` starts with `p`. -/
def dropPre : List Char → List Char → Option (List Char)
  | [], s => some s
  | _ :: _, [] => none
  | a :: p, b :: s => if a = b then dropPre p s else none

/-- `syscall.strip_prefix("risc0_zkvm_platform::syscall::nr::").unwrap_or(syscall)`
from `ProverImpl::on_txrx`. -/
def stripNr (s : String) : String :=
  match dropPre nrPre s.data with
  | some rest => String.mk rest
  | none => s

/-! ## Posix I/O registrations (`ProverOpts::io`) -/

/-- Where a registered posix writer sends bytes: the in-memory `Journal`
buffer, or some host-side sink identified abstractly. -/
inductive Sink where
  | journal
  | host (id : Nat)
deriving DecidableEq

/-- `io::PosixIo` as registered in `ProverOpts`: per-fd reader byte streams and
per-fd writer sinks (the reader/writer objects themselves are host I/O and are
abstracted to the data the claims need). -/
structure PosixIoState where
  read_fds : List (Nat × Bytes)
  write_fds : List (Nat × Sink)
deriving DecidableEq

/-- `PosixIo::new()`. -/
def PosixIoState.new : PosixIoState := ⟨[], []⟩

/-- `PosixIo::with_read_fd`. -/
def PosixIoState.with_read_fd (ps : PosixIoState) (fd : Nat) (bytes : Bytes) :
    PosixIoState :=
  { ps with read_fds := insertAssoc fd bytes ps.read_fds }

/-- `PosixIo::with_write_fd`. -/
def PosixIoState.with_write_fd (ps : PosixIoState) (fd : Nat) (s : Sink) :
    PosixIoState :=
  { ps with write_fds := insertAssoc fd s ps.write_fds }

/-! ## Syscall handlers -/

/-- Result of one syscall: the `(a0, a1)` register pair and the final contents
of the `to_guest` buffer. -/
abbrev SyscallRet := (Nat × Nat) × Bytes

/-- What a `SyscallContext` supplies to a handler: the guest memory region at
`[REG_A3, REG_A3 + REG_A4)` and the current cycle count. -/
structure SyscallCtx where
  regionA3 : Bytes
  cycle : Nat
deriving DecidableEq

/-- The values stored in `ProverOpts::syscall_handlers` (and as
`unknown_syscall_handler`): user-registered handlers are abstract, the
handlers the source defines in `prove/mod.rs` are concrete tags. -/
inductive HandlerSpec where
  | user (id : Nat)
  | posix (ps : PosixIoState)
  | getenvH (env : List (Bytes × Bytes))
  | defaultH
  | unknownH
deriving DecidableEq

/-- `from_utf8` as used for guest-supplied panic/log messages, restricted to
the byte-per-char rendering (exact for ASCII; no claim depends on the text). -/
def bytesAsChars (b : Bytes) : String := String.mk (b.map (fun n => Char.ofNat n))

/-- `Getenv::syscall` (`prove/mod.rs`): `key` is the guest region decoded from
`REG_A3`/`REG_A4`, `to_guest` is the destination viewed as bytes (so its
length is `to_guest.len() * WORD_SIZE` of the source's word slice). -/
def getenvSyscall (env : List (Bytes × Bytes)) (key : Bytes) (to_guest : Bytes) :
    (Nat × Nat) × Bytes :=
  match lookupAssoc env key with
  | none => ((u32Max, 0), to_guest)
  | some val =>
      let nbytes := min to_guest.length val.length
      ((val.length % 2 ^ 32, 0), val.take nbytes ++ to_guest.drop nbytes)

/-- Abstract semantics of a user-registered (or posix) handler. -/
abbrev HandlerFun := String → SyscallCtx → Bytes → Except String SyscallRet

/-- Interpretation of a `HandlerSpec` as the `Syscall::syscall` method:
`UnknownSyscall` always aborts (`panic!("Unknown syscall {syscall}")`),
`DefaultSyscall` handles panic/log/cycle-count, `Getenv` is `getenvSyscall`;
user handlers and `PosixIo` are abstracted by `userSem`/`posixSem`. -/
def handlerSem (userSem : Nat → HandlerFun) (posixSem : PosixIoState → HandlerFun)
    (h : HandlerSpec) (name : String) (ctx : SyscallCtx) (to_guest : Bytes) :
    Except String SyscallRet :=
  match h with
  | .user id => userSem id name ctx to_guest
  | .posix ps => posixSem ps name ctx to_guest
  | .getenvH env => .ok (getenvSyscall env ctx.regionA3 to_guest)
  | .defaultH =>
      if name = SYS_PANIC then
        .error ("Guest panicked: " ++ bytesAsChars ctx.regionA3)
      else if name = SYS_LOG then .ok ((0, 0), to_guest)
      else if name = SYS_CYCLE_COUNT then .ok ((ctx.cycle % 2 ^ 32, 0), to_guest)
      else .error ("Unknown syscall: " ++ name)
  | .unknownH => .error ("Unknown syscall " ++ name)

/-! ## `ProverOpts` -/

/-- `DEFAULT_SEGMENT_LIMIT_PO2` (16M cycles). -/
def DEFAULT_SEGMENT_LIMIT_PO2 : Nat := 23

/-- `ProverOpts` from `prove/mod.rs`; the trace callback is host code and is
kept as an abstract identifier. -/
structure ProverOpts where
  skip_seal : Bool
  skip_verify : Bool
  syscall_handlers : List (String × HandlerSpec)
  io_state : PosixIoState
  env_vars : List (Bytes × Bytes)
  trace_callback : Option Nat
  unknown_syscall_handler : HandlerSpec
  preflight : Bool
  segment_limit_po2 : Nat
  finalized : Bool
deriving DecidableEq

/-- `ProverOpts::with_segment_limit_po2`. -/
def ProverOpts.with_segment_limit_po2 (o : ProverOpts) (n : Nat) : ProverOpts :=
  { o with segment_limit_po2 := n }

/-- `ProverOpts::with_skip_seal`. -/
def ProverOpts.with_skip_seal (o : ProverOpts) (b : Bool) : ProverOpts :=
  { o with skip_seal := b }

/-- `ProverOpts::with_skip_verify`. -/
def ProverOpts.with_skip_verify (o : ProverOpts) (b : Bool) : ProverOpts :=
  { o with skip_verify := b }

/-- `ProverOpts::with_preflight`. -/
def ProverOpts.with_preflight (o : ProverOpts) (b : Bool) : ProverOpts :=
  { o with preflight := b }

/-- `ProverOpts::with_syscall`. -/
def ProverOpts.with_syscall (o : ProverOpts) (name : String) (h : HandlerSpec) :
    ProverOpts :=
  { o with syscall_handlers := insertAssoc name h o.syscall_handlers }

/-- `ProverOpts::with_unknown_syscall_handler`. -/
def ProverOpts.with_unknown_syscall_handler (o : ProverOpts) (h : HandlerSpec) :
    ProverOpts :=
  { o with unknown_syscall_handler := h }

/-- `ProverOpts::with_trace_callback`: the source `assert!`s that no callback
was registered before (`"Duplicate trace callback"`); the fatal assertion
failure is modelled as `Except.error`. -/
def ProverOpts.with_trace_callback (o : ProverOpts) (cb : Nat) :
    Except String ProverOpts :=
  if o.trace_callback.isSome then .error "Duplicate trace callback"
  else .ok { o with trace_callback := some cb }

/-- `ProverOpts::with_read_fd`. -/
def ProverOpts.with_read_fd (o : ProverOpts) (fd : Nat) (bytes : Bytes) :
    ProverOpts :=
  { o with io_state := o.io_state.with_read_fd fd bytes }

/-- `ProverOpts::with_write_fd`. -/
def ProverOpts.with_write_fd (o : ProverOpts) (fd : Nat) (s : Sink) : ProverOpts :=
  { o with io_state := o.io_state.with_write_fd fd s }

/-- `ProverOpts::with_stdin`. -/
def ProverOpts.with_stdin (o : ProverOpts) (bytes : Bytes) : ProverOpts :=
  o.with_read_fd fileno_STDIN bytes

/-- `ProverOpts::with_env_var` (keys/values as UTF-8 bytes). -/
def ProverOpts.with_env_var (o : ProverOpts) (name val : Bytes) : ProverOpts :=
  { o with env_vars := insertAssoc name val o.env_vars }

/-- `ProverOpts::finalize`: a no-op when already finalized, otherwise marks the
options finalized and installs the late-binding posix I/O and getenv handlers,
`take`-ing `io` and `env_vars` out of the options. -/
def ProverOpts.finalize (o : ProverOpts) : ProverOpts :=
  if o.finalized then o
  else
    let ps := o.io_state
    let env := o.env_vars
    let o1 : ProverOpts :=
      { o with finalized := true, io_state := PosixIoState.new, env_vars := [] }
    let o2 := o1.with_syscall SYS_READ (.posix ps)
    let o3 := o2.with_syscall SYS_READ_AVAIL (.posix ps)
    let o4 := o3.with_syscall SYS_WRITE (.posix ps)
    o4.with_syscall SYS_GETENV (.getenvH env)

/-- `ProverOpts::without_defaults`. -/
def ProverOpts.without_defaults : ProverOpts :=
  { skip_seal := false
    skip_verify := false
    syscall_handlers := []
    io_state := PosixIoState.new
    env_vars := []
    trace_callback := none
    unknown_syscall_handler := .unknownH
    preflight := false
    segment_limit_po2 := DEFAULT_SEGMENT_LIMIT_PO2
    finalized := false }

/-- `impl Default for ProverOpts`: `preflightEnv` is whether the
`RISC0_EXPERIMENTAL_PREFLIGHT` environment variable is set and `stdinBytes`
stands for the process's standard input stream. -/
def ProverOpts.defaultOpts (preflightEnv : Bool) (stdinBytes : Bytes) : ProverOpts :=
  ((((((ProverOpts.without_defaults.with_preflight
      preflightEnv).with_read_fd fileno_STDIN stdinBytes).with_write_fd
      fileno_STDOUT (.host fileno_STDOUT)).with_write_fd fileno_STDERR
      (.host fileno_STDERR)).with_syscall SYS_PANIC .defaultH).with_syscall
      SYS_LOG .defaultH).with_syscall SYS_CYCLE_COUNT .defaultH

/-! ## Syscall dispatch (`ProverImpl::on_txrx`) -/

/-- Which of the three dispatch outcomes of `ProverImpl::on_txrx` ran. -/
inductive DispatchResult where
  | registered
  | builtinRandom
  | fallback
deriving DecidableEq

/-- `ProverImpl::on_txrx`: exact-name lookup in the registered handler map
first; otherwise the module path is stripped and `"SYS_RANDOM"` is served by
the built-in `getrandom` fill (`randFill` abstracts the random bytes written
over `to_guest`); every other name goes to `unknown_syscall_handler`.  The
first component records which branch ran; the second is the branch's result. -/
def on_txrx (userSem : Nat → HandlerFun) (posixSem : PosixIoState → HandlerFun)
    (randFill : Bytes → Bytes) (opts : ProverOpts) (name : String)
    (ctx : SyscallCtx) (to_guest : Bytes) :
    DispatchResult × Except String SyscallRet :=
  match lookupAssoc opts.syscall_handlers name with
  | some cb => (.registered, handlerSem userSem posixSem cb name ctx to_guest)
  | none =>
      if stripNr name = "SYS_RANDOM" then
        (.builtinRandom, .ok ((0, 0), randFill to_guest))
      else
        (.fallback,
          handlerSem userSem posixSem opts.unknown_syscall_handler name ctx to_guest)

/-! ## Journal and guest writes -/

/-- `impl Write for Journal`: writing appends the bytes to the shared buffer. -/
def Journal_write (buf bytes : Bytes) : Bytes := buf ++ bytes

/-- Observable targets of guest posix writes: the journal buffer plus whatever
has been forwarded to host-side sinks. -/
structure WriteState where
  journalBuf : Bytes
  hostOut : List (Nat × Bytes)
deriving DecidableEq

/-- Modelled from the spec: the `PosixIo` write dispatch lives in
`prove/io.rs`, which is not under `src/`.  Per the spec, a guest write is
routed to the writer registered for the file descriptor — for the journal
descriptor that writer is the in-memory `Journal` (captured, not forwarded to
any external sink); an unregistered descriptor has no writer. -/
def posixWriteFd (ps : PosixIoState) (fd : Nat) (bytes : Bytes) (st : WriteState) :
    Option WriteState :=
  match lookupAssoc ps.write_fds fd with
  | none => none
  | some .journal => some { st with journalBuf := Journal_write st.journalBuf bytes }
  | some (.host id) => some { st with hostOut := st.hostOut ++ [(id, bytes)] }

/-! ## `ProverImpl` and `Prover` -/

/-- `ProverImpl`: buffered raw input, the journal buffer contents, the options
and the one-shot finalization flag. -/
structure ProverImpl where
  input : Bytes
  journal : Bytes
  opts : ProverOpts
  opts_finalized : Bool
deriving DecidableEq

/-- `ProverImpl::new`: wires the journal descriptor to the `Journal` buffer. -/
def ProverImpl.new (opts : ProverOpts) : ProverImpl :=
  { input := []
    journal := []
    opts := opts.with_write_fd fileno_JOURNAL .journal
    opts_finalized := false }

/-- `Prover`: the memory image is tracked by its root commitment, which is all
the proving/verification flow reads from it. -/
structure Prover where
  inner : ProverImpl
  pc : Nat
  imageRoot : Nat
  cycles : Nat
  exit_code : Nat
deriving DecidableEq

/-- `Prover::from_image`. -/
def Prover.from_image (imageRoot pc : Nat) (opts : ProverOpts) : Prover :=
  { inner := ProverImpl.new opts
    pc := pc
    imageRoot := imageRoot
    cycles := 0
    exit_code := 0 }

/-- `Prover::add_input_u8_slice`. -/
def add_input_u8_slice (p : Prover) (slice : Bytes) : Prover :=
  { p with inner := { p.inner with input := p.inner.input ++ slice } }

/-- The configuration phase at the head of `Prover::run_with_hal`: on the
first run, buffered raw input (if any) is merged into stdin and the options
are finalized; on later runs the source `assert!`s that no further input was
added (modelled as `Except.error`). -/
def runConfigStep (p : Prover) : Except String Prover :=
  if p.inner.opts_finalized = false then
    let opts1 :=
      if p.inner.input = [] then p.inner.opts
      else p.inner.opts.with_stdin p.inner.input
    .ok { p with inner :=
      { p.inner with opts := opts1.finalize, opts_finalized := true, input := [] } }
  else if p.inner.input = [] then .ok p
  else .error
    "Input may not be added after the prover starts proving using the add_input_* calls"

/-- What one segment execution returns to `run_with_hal`: `(cycles, exit_code,
pc)`, the updated image root, and the byte chunks the guest wrote to the
journal descriptor during the segment. -/
structure ExecOut where
  cycles : Nat
  exit_code : Nat
  pc : Nat
  newImageRoot : Nat
  journalWrites : List Bytes

/-- The host machinery `run_with_hal` drives, abstracted: the RV32 executor,
the HAL seal computation for the direct and preflight paths, and
`Receipt::verify_with_hash`. -/
structure HalOracle where
  exec : Nat → Nat → ExecOut
  directSeal : ExecOut → Bytes
  preflightSeal : ExecOut → Bytes
  verify : Bytes → Bytes → Nat → Bool

/-- `Receipt`; the source field `seal` is a Lean keyword, so it is spelled `seal'` here. -/
structure Receipt where
  journal : Bytes
  seal' : Bytes
deriving DecidableEq

/-- Observable side events of one `run_with_hal` call: whether HAL
commit/finalize work produced a seal, and which image root (if any) the
receipt was self-verified against. -/
structure RunLog where
  sealWork : Bool
  verifiedAgainst : Option Nat
deriving DecidableEq

/-- `Prover::run_with_hal` over the `HalOracle` abstraction.
`insecure_skip_seal` is the `RISC0_EXPERIMENTAL_PREFLIGHT`-style environment
override `receipt::insecure_skip_seal()`.  Control flow follows the source:
config phase; effective `skip_seal`; the preflight path assembles the receipt
from the preflight segment (empty seal when skipping) and returns without
self-verifying and without advancing `pc`/image; the direct path captures the
pre-execution image root, executes one segment, seals unless skipping, and
self-verifies only when `!skip_seal && !skip_verify`. -/
def run_with_hal (oracle : HalOracle) (insecure_skip_seal : Bool) (p0 : Prover) :
    Except String (Receipt × RunLog × Prover) :=
  match runConfigStep p0 with
  | .error e => .error e
  | .ok p =>
    let skip_seal := p.inner.opts.skip_seal || insecure_skip_seal
    let out := oracle.exec p.pc p.imageRoot
    let journal := List.foldl Journal_write p.inner.journal out.journalWrites
    if p.inner.opts.preflight then
      let seal' := if skip_seal then [] else oracle.preflightSeal out
      let pOut : Prover := { p with inner := { p.inner with journal := [] } }
      .ok (⟨journal, seal'⟩, ⟨!skip_seal, none⟩, pOut)
    else
      let image_id := p.imageRoot
      let seal' := if skip_seal then [] else oracle.directSeal out
      let p1 : Prover :=
        { p with cycles := out.cycles, exit_code := out.exit_code, pc := out.pc,
                 imageRoot := out.newImageRoot,
                 inner := { p.inner with journal := [] } }
      if !skip_seal && !p.inner.opts.skip_verify then
        if oracle.verify journal seal' image_id then
          .ok (⟨journal, seal'⟩, ⟨!skip_seal, some image_id⟩, p1)
        else .error "receipt verification failed"
      else
        .ok (⟨journal, seal'⟩, ⟨!skip_seal, none⟩, p1)

/-! ## Concrete sample data used by witnesses and counterexamples -/

/-- A sample oracle whose verifier accepts everything. -/
def trueOracle : HalOracle :=
  { exec := fun _ _ => ⟨7, 0, 100, 42, [[1, 2]]⟩
    directSeal := fun _ => [9]
    preflightSeal := fun _ => [8]
    verify := fun _ _ _ => true }

/-- A sample prover with all options at their defaults-off state. -/
def sampleProver : Prover := Prover.from_image 5 0 ProverOpts.without_defaults

/-- A sample prover configured with `skip_seal` but not `skip_verify`. -/
def sampleProverSkipSeal : Prover :=
  Prover.from_image 5 0 (ProverOpts.without_defaults.with_skip_seal true)

/-- The concrete outcome of running `sampleProver` under `trueOracle`. -/
def sampleOut : Receipt × RunLog × Prover :=
  ((run_with_hal trueOracle false sampleProver).toOption).getD
    (⟨[], []⟩, ⟨false, none⟩, sampleProver)

/-- A sample prover whose options were already finalized by an earlier run. -/
def sampleProverStarted : Prover :=
  { sampleProver with inner := { sampleProver.inner with opts_finalized := true } }

/-- The concrete outcome of running `sampleProverSkipSeal` under `trueOracle`. -/
def sampleOutSkipSeal : Receipt × RunLog × Prover :=
  ((run_with_hal trueOracle false sampleProverSkipSeal).toOption).getD
    (⟨[], []⟩, ⟨true, none⟩, sampleProverSkipSeal)

/-- A trivial abstract user-handler semantics used by witnesses. -/
def wUserSem : Nat → HandlerFun := fun _ _ _ g => .ok ((0, 0), g)

/-- A trivial abstract posix-handler semantics used by witnesses. -/
def wPosixSem : PosixIoState → HandlerFun := fun _ _ _ g => .ok ((0, 0), g)

/-- Options with a user handler registered under the exact name `"sys_x"`. -/
def optsRegX : ProverOpts := ProverOpts.without_defaults.with_syscall "sys_x" (.user 0)

/-! ## Helper lemmas -/

lemma finalize_flags (o : ProverOpts) :
    o.finalize.finalized = true ∧ o.finalize.skip_seal = o.skip_seal ∧
    o.finalize.skip_verify = o.skip_verify ∧ o.finalize.preflight = o.preflight := by
  by_cases h : o.finalized <;>
    simp [ProverOpts.finalize, h, ProverOpts.with_syscall]

lemma with_stdin_flags (o : ProverOpts) (b : Bytes) :
    (o.with_stdin b).skip_seal = o.skip_seal ∧
    (o.with_stdin b).skip_verify = o.skip_verify ∧
    (o.with_stdin b).preflight = o.preflight ∧
    (o.with_stdin b).finalized = o.finalized := ⟨rfl, rfl, rfl, rfl⟩

lemma runConfigStep_inv {p q : Prover} (h : runConfigStep p = .ok q) :
    q.inner.opts.skip_seal = p.inner.opts.skip_seal ∧
    q.inner.opts.skip_verify = p.inner.opts.skip_verify ∧
    q.inner.opts.preflight = p.inner.opts.preflight ∧
    q.inner.journal = p.inner.journal ∧ q.pc = p.pc ∧ q.imageRoot = p.imageRoot := by
  unfold runConfigStep at h
  split at h
  · injection h with h
    subst h
    refine ⟨?_, ?_, ?_, rfl, rfl, rfl⟩ <;>
      · dsimp only
        split <;>
          simp [finalize_flags, ProverOpts.with_stdin, ProverOpts.with_read_fd]
  · split at h
    · injection h with h
      subst h
      exact ⟨rfl, rfl, rfl, rfl, rfl, rfl⟩
    · exact absurd h (by simp)

lemma foldl_journal_take (l : List Bytes) : forall buf : Bytes,
    (List.foldl Journal_write buf l).take buf.length = buf := by
  induction l with
  | nil => intro buf; simp
  | cons c l ih =>
      intro buf
      show (List.foldl Journal_write (buf ++ c) l).take buf.length = buf
      have hle : buf.length <= (buf ++ c).length := by simp
      have h1 : (List.foldl Journal_write (buf ++ c) l).take buf.length
          = ((List.foldl Journal_write (buf ++ c) l).take (buf ++ c).length).take
              buf.length := by
        rw [List.take_take, min_eq_left hle]
      rw [h1, ih (buf ++ c)]
      simp [List.take_left]

lemma run_ok_shape {oracle : HalOracle} {insecure : Bool} {p : Prover}
    {r : Receipt} {log : RunLog} {q : Prover}
    (h : run_with_hal oracle insecure p = .ok (r, log, q)) :
    exists p1 : Prover, runConfigStep p = .ok p1 /\
      r.journal = List.foldl Journal_write p1.inner.journal
        (oracle.exec p1.pc p1.imageRoot).journalWrites /\
      r.seal' = (if (p1.inner.opts.skip_seal || insecure) = true then ([] : Bytes)
        else if p1.inner.opts.preflight = true then
          oracle.preflightSeal (oracle.exec p1.pc p1.imageRoot)
        else oracle.directSeal (oracle.exec p1.pc p1.imageRoot)) /\
      log.sealWork = !(p1.inner.opts.skip_seal || insecure) /\
      log.verifiedAgainst = (if p1.inner.opts.preflight = true then none
        else if (!(p1.inner.opts.skip_seal || insecure)
            && !p1.inner.opts.skip_verify) = true
          then some p1.imageRoot else none) /\
      (p1.inner.opts.preflight = false ->
        (!(p1.inner.opts.skip_seal || insecure)
            && !p1.inner.opts.skip_verify) = true ->
        oracle.verify r.journal r.seal' p1.imageRoot = true) := by
  unfold run_with_hal at h
  cases hc : runConfigStep p with
  | error e => rw [hc] at h; exact absurd h (by simp)
  | ok p1 =>
    rw [hc] at h
    dsimp only at h
    refine Exists.intro p1 (And.intro rfl ?_)
    by_cases hpf : p1.inner.opts.preflight = true
    · rw [if_pos hpf] at h
      injection h with h
      injection h with ha h
      injection h with hb hcq
      subst ha hb hcq
      simp [hpf]
    · rw [if_neg hpf] at h
      have hpf2 : p1.inner.opts.preflight = false := by
        revert hpf; cases p1.inner.opts.preflight <;> simp
      by_cases hv : (!(p1.inner.opts.skip_seal || insecure)
          && !p1.inner.opts.skip_verify) = true
      · rw [if_pos hv] at h
        have hss : (p1.inner.opts.skip_seal || insecure) = false := by
          revert hv; cases hb : p1.inner.opts.skip_seal <;> cases insecure <;> simp
        by_cases hver : oracle.verify
            (List.foldl Journal_write p1.inner.journal
              (oracle.exec p1.pc p1.imageRoot).journalWrites)
            (if (p1.inner.opts.skip_seal || insecure) then ([] : Bytes)
             else oracle.directSeal (oracle.exec p1.pc p1.imageRoot))
            p1.imageRoot = true
        · rw [if_pos hver] at h
          injection h with h
          injection h with ha h
          injection h with hb hcq
          subst ha hb hcq
          refine And.intro rfl (And.intro ?_ (And.intro ?_ (And.intro ?_ ?_)))
          · simp [hpf2, hss]
          · simp [hv, hpf2]
          · rw [if_neg hpf, if_pos hv]
          · intro _ _
            simpa [hss] using hver
        · rw [if_neg hver] at h
          exact absurd h (by simp)
      · rw [if_neg hv] at h
        injection h with h
        injection h with ha h
        injection h with hb hcq
        subst ha hb hcq
        refine And.intro rfl (And.intro ?_ (And.intro ?_ (And.intro ?_ ?_)))
        · simp [hpf2]
        · rfl
        · rw [if_neg hpf, if_neg hv]
        · intro hx hv2
          exact absurd hv2 hv

/-! ## Claim theorems -/

/-- Claim C1: for every syscall invocation dispatched by `ProverImpl::on_txrx`,
exactly one handler runs (the dispatch result is a single branch tag): a
user-registered handler under the exact syscall name takes priority; otherwise
the prefix-stripped name `"SYS_RANDOM"` selects the built-in random fill;
every other name goes to the configured unknown-syscall fallback. -/
theorem dispatch_priority_exclusive
    (userSem : Nat → HandlerFun) (posixSem : PosixIoState → HandlerFun)
    (randFill : Bytes → Bytes) (opts : ProverOpts) (name : String)
    (ctx : SyscallCtx) (to_guest : Bytes) :
    ((lookupAssoc opts.syscall_handlers name).isSome = true →
      (on_txrx userSem posixSem randFill opts name ctx to_guest).1 = .registered) ∧
    (lookupAssoc opts.syscall_handlers name = none → stripNr name = "SYS_RANDOM" →
      (on_txrx userSem posixSem randFill opts name ctx to_guest).1
        = .builtinRandom) ∧
    (lookupAssoc opts.syscall_handlers name = none → stripNr name ≠ "SYS_RANDOM" →
      (on_txrx userSem posixSem randFill opts name ctx to_guest).1 = .fallback) := by
  refine ⟨fun h => ?_, fun h hr => ?_, fun h hr => ?_⟩
  · cases hl : lookupAssoc opts.syscall_handlers name with
    | none => rw [hl] at h; simp at h
    | some cb => simp [on_txrx, hl]
  · simp [on_txrx, h, hr]
  · simp [on_txrx, h, hr]

/-- Witness for C1: each of the three dispatch branches at a concrete input. -/
theorem dispatch_priority_exclusive_witness :
    (on_txrx wUserSem wPosixSem id optsRegX "sys_x" ⟨[], 0⟩ []).1
        = DispatchResult.registered ∧
    (on_txrx wUserSem wPosixSem id ProverOpts.without_defaults
        "risc0_zkvm_platform::syscall::nr::SYS_RANDOM" ⟨[], 0⟩ []).1
        = DispatchResult.builtinRandom ∧
    (on_txrx wUserSem wPosixSem id ProverOpts.without_defaults "sys_y" ⟨[], 0⟩ []).1
        = DispatchResult.fallback := by
  refine ⟨?_, ?_, ?_⟩
  · exact (dispatch_priority_exclusive wUserSem wPosixSem id optsRegX
      "sys_x" ⟨[], 0⟩ []).1 (by decide)
  · exact (dispatch_priority_exclusive wUserSem wPosixSem id
      ProverOpts.without_defaults "risc0_zkvm_platform::syscall::nr::SYS_RANDOM"
      ⟨[], 0⟩ []).2.1 rfl (by decide)
  · exact (dispatch_priority_exclusive wUserSem wPosixSem id
      ProverOpts.without_defaults "sys_y" ⟨[], 0⟩ []).2.2 rfl (by decide)

/-- Claim C2: `Getenv::syscall` returns the not-found sentinel `u32::MAX`
without touching the guest buffer when the key is absent; when the key is
bound to `val` it writes exactly `min (capacity in bytes) val.length` bytes of
`val` (the rest of the buffer unchanged) and returns the full byte length of
`val` as the first return word. -/
theorem getenv_lookup_semantics (env : List (Bytes × Bytes)) (key : Bytes)
    (to_guest : Bytes) :
    (lookupAssoc env key = none →
      getenvSyscall env key to_guest = ((u32Max, 0), to_guest)) ∧
    (∀ val : Bytes, lookupAssoc env key = some val → val.length < 2 ^ 32 →
      getenvSyscall env key to_guest =
        ((val.length, 0),
          val.take (min to_guest.length val.length)
            ++ to_guest.drop (min to_guest.length val.length))) := by
  constructor
  · intro h; simp [getenvSyscall, h]
  · intro val h hlt
    have hmod : List.length val % 2 ^ 32 = List.length val := Nat.mod_eq_of_lt hlt
    simp [getenvSyscall, h, hmod]
    omega

/-- Witness for C2: with `"FOO" = "bar"` (UTF-8 bytes) and a 2-byte
destination, the true length 3 is returned and `"ba"` is written; an unbound
key returns `u32::MAX` and leaves the buffer unchanged. -/
theorem getenv_lookup_semantics_witness :
    getenvSyscall [([70, 79, 79], [98, 97, 114])] [70, 79, 79] [0, 0]
        = ((3, 0), [98, 97]) ∧
    getenvSyscall [([70, 79, 79], [98, 97, 114])] [66] [0, 0]
        = ((u32Max, 0), [0, 0]) := by
  constructor
  · exact ((getenv_lookup_semantics [([70, 79, 79], [98, 97, 114])] [70, 79, 79]
      [0, 0]).2 [98, 97, 114] (by decide) (by decide)).trans (by decide)
  · exact (getenv_lookup_semantics [([70, 79, 79], [98, 97, 114])] [66]
      [0, 0]).1 (by decide)

/-- Claim C3: a syscall name with no user registration that is not the
built-in random fill reaches the unknown-syscall fallback; with the default
fallback (`UnknownSyscall`, as installed by `ProverOpts::without_defaults`)
the dispatch fails fatally — it never produces a success value. -/
theorem unknown_fallback_fatal
    (userSem : Nat → HandlerFun) (posixSem : PosixIoState → HandlerFun)
    (randFill : Bytes → Bytes) (opts : ProverOpts) (name : String)
    (ctx : SyscallCtx) (to_guest : Bytes)
    (hreg : lookupAssoc opts.syscall_handlers name = none)
    (hrand : stripNr name ≠ "SYS_RANDOM")
    (hdef : opts.unknown_syscall_handler = HandlerSpec.unknownH) :
    (on_txrx userSem posixSem randFill opts name ctx to_guest).2
        = .error ("Unknown syscall " ++ name) ∧
    ProverOpts.without_defaults.unknown_syscall_handler = HandlerSpec.unknownH := by
  constructor
  · simp [on_txrx, hreg, hrand, hdef, handlerSem]
  · rfl

/-- Witness for C3: the unregistered name `"sys_z"` under default options
aborts the run. -/
theorem unknown_fallback_fatal_witness :
    (on_txrx wUserSem wPosixSem id ProverOpts.without_defaults "sys_z"
        ⟨[], 0⟩ []).2 = .error "Unknown syscall sys_z" := by
  exact ((unknown_fallback_fatal wUserSem wPosixSem id ProverOpts.without_defaults
    "sys_z" ⟨[], 0⟩ [] rfl (by decide) rfl).1).trans
    (congrArg Except.error (by decide))

/-- Claim C8: `ProverOpts::with_trace_callback` fails its precondition check
(`"Duplicate trace callback"`) when a callback is already registered, installs
the callback when none is, and any successful result holds exactly the new
callback — so a configuration can never hold more than one trace callback. -/
theorem trace_callback_unique (o : ProverOpts) (cb c0 : Nat) :
    (o.trace_callback = none →
      o.with_trace_callback cb = .ok { o with trace_callback := some cb }) ∧
    (o.trace_callback = some c0 →
      o.with_trace_callback cb = .error "Duplicate trace callback") ∧
    (∀ q : ProverOpts, o.with_trace_callback cb = .ok q →
      q.trace_callback = some cb) := by
  refine ⟨fun h => ?_, fun h => ?_, fun q hq => ?_⟩
  · simp [ProverOpts.with_trace_callback, h]
  · simp [ProverOpts.with_trace_callback, h]
  · unfold ProverOpts.with_trace_callback at hq
    split at hq
    · exact absurd hq (by simp)
    · injection hq with hq
      subst hq
      rfl

/-- Witness for C8: installing once succeeds; installing again fails the
precondition check. -/
theorem trace_callback_unique_witness :
    ProverOpts.without_defaults.with_trace_callback 0
        = .ok { ProverOpts.without_defaults with trace_callback := some 0 } ∧
    ({ ProverOpts.without_defaults with trace_callback := some 0 }
        : ProverOpts).with_trace_callback 1
        = .error "Duplicate trace callback" := by
  exact ⟨(trace_callback_unique ProverOpts.without_defaults 0 0).1 rfl,
    (trace_callback_unique
      { ProverOpts.without_defaults with trace_callback := some 0 } 1 0).2.1 rfl⟩

/-- Claim C9: `Hashes` parsing and printing round-trip: `from_str ∘ to_string`
is the identity on both variants, and every other string yields
`InvalidHash` carrying that string. -/
theorem hashes_roundtrip :
    (∀ h : Hashes, Hashes.from_str h.to_string = .ok h) ∧
    (∀ s : String, s ≠ "sha256" → s ≠ "poseidon" →
      Hashes.from_str s = .error (.InvalidHash s)) := by
  constructor
  · intro h; cases h <;> rfl
  · intro s h1 h2
    simp [Hashes.from_str, ZKVM_HASH_SHA256, ZKVM_HASH_POSEIDON, h1, h2]

/-- Witness for C9: `"blake3"` is rejected with `InvalidHash "blake3"`, and
`"sha256"` round-trips. -/
theorem hashes_roundtrip_witness :
    Hashes.from_str "blake3" = .error (.InvalidHash "blake3") ∧
    Hashes.from_str (Hashes.to_string .Sha256) = .ok .Sha256 := by
  exact ⟨hashes_roundtrip.2 "blake3" (by decide) (by decide),
    hashes_roundtrip.1 .Sha256⟩

/-- Claim C10: the `TryFrom<Envelope>` conversions return `InvalidDataType`
carrying the display string of the envelope's `body_type` whenever the tag
does not match the target type — independently of the deserializer, which is
therefore never consulted — and deserialize the body exactly when the tag
matches. -/
theorem envelope_tryfrom_tag_check {α : Type} (tag : BodyType)
    (d1 d2 : Bytes → Except String α) (e : Envelope) :
    (e.body_type ≠ tag →
      tryFromEnvelope tag d1 e = .error (.InvalidDataType e.body_type.display)) ∧
    (e.body_type ≠ tag → tryFromEnvelope tag d1 e = tryFromEnvelope tag d2 e) ∧
    (e.body_type = tag →
      tryFromEnvelope tag d1 e =
        match d1 e.body with
        | .ok v => .ok v
        | .error _ => .error CommonErr.BincodeErr) := by
  refine ⟨fun h => ?_, fun h => ?_, fun h => ?_⟩
  · simp [tryFromEnvelope, h]
  · simp [tryFromEnvelope, h]
  · simp [tryFromEnvelope, h]

/-- Witness for C10: a `Session`-tagged envelope fails `Segment` conversion
with `InvalidDataType "Session"` and succeeds at `Session` conversion. -/
theorem envelope_tryfrom_tag_check_witness :
    tryFromEnvelope (α := Bytes) BodyType.Segment (fun b => .ok b)
        ⟨[], BodyType.Session, [1]⟩
      = .error (.InvalidDataType "Session") ∧
    tryFromEnvelope (α := Bytes) BodyType.Session (fun b => .ok b)
        ⟨[], BodyType.Session, [1]⟩ = .ok [1] := by
  constructor
  · exact (envelope_tryfrom_tag_check (α := Bytes) BodyType.Segment
      (fun b => .ok b) (fun b => .ok b) ⟨[], BodyType.Session, [1]⟩).1 (by decide)
  · exact ((envelope_tryfrom_tag_check (α := Bytes) BodyType.Session
      (fun b => .ok b) (fun b => .ok b) ⟨[], BodyType.Session, [1]⟩).2.2 rfl).trans rfl

/-- Counterexample to C4 as stated: with `skip_verify = false` but
`skip_seal = true`, `run_with_hal` returns a Receipt without any
self-verification (`verifiedAgainst = none`). -/
theorem skip_verify_false_no_verify_cex :
    sampleProverSkipSeal.inner.opts.skip_verify = false ∧
    (run_with_hal trueOracle false sampleProverSkipSeal).map (fun x => x.2.1)
        = .ok { sealWork := false, verifiedAgainst := none } := by
  exact ⟨rfl, rfl⟩

/-- Claim C4 (amended): if `skip_verify` is false, `skip_seal` is false, the
insecure-skip-seal environment override is inactive, and preflight mode is
off, then a returned Receipt was self-verified against the pre-execution
image root before being returned. -/
theorem receipt_self_verified_amended (oracle : HalOracle) (p : Prover)
    (r : Receipt) (log : RunLog) (q : Prover)
    (hsv : p.inner.opts.skip_verify = false)
    (hss : p.inner.opts.skip_seal = false)
    (hpf : p.inner.opts.preflight = false)
    (hrun : run_with_hal oracle false p = .ok (r, log, q)) :
    log.verifiedAgainst = some p.imageRoot ∧
    oracle.verify r.journal r.seal' p.imageRoot = true := by
  obtain ⟨p1, hc, hj, hs, hw, hv, hvf⟩ := run_ok_shape hrun
  obtain ⟨i1, i2, i3, i4, i5, i6⟩ := runConfigStep_inv hc
  have hss1 : p1.inner.opts.skip_seal = false := i1.trans hss
  have hsv1 : p1.inner.opts.skip_verify = false := i2.trans hsv
  have hpf1 : p1.inner.opts.preflight = false := i3.trans hpf
  have hcond : (!(p1.inner.opts.skip_seal || false)
      && !p1.inner.opts.skip_verify) = true := by
    rw [hss1, hsv1]; rfl
  constructor
  · rw [hv, if_neg (by rw [hpf1]; exact Bool.false_ne_true), if_pos hcond, i6]
  · rw [← i6]
    exact hvf hpf1 hcond

/-- Witness for C4 (amended): a concrete full run (no skips, no preflight)
self-verifies against the pre-execution image root `5`. -/
theorem receipt_self_verified_amended_witness :
    sampleOut.2.1.verifiedAgainst = some 5 ∧
    sampleProver.inner.opts.skip_verify = false := by
  have h := receipt_self_verified_amended trueOracle sampleProver
    sampleOut.1 sampleOut.2.1 sampleOut.2.2 rfl rfl rfl rfl
  exact ⟨h.1, rfl⟩

/-- Claim C5: when the `skip_seal` option is set (or the insecure-skip-seal
environment override is active), a returned Receipt carries the empty seal
and no circuit commit/finalize work is performed for the segment. -/
theorem skip_seal_empty_seal (oracle : HalOracle) (insecure : Bool) (p : Prover)
    (r : Receipt) (log : RunLog) (q : Prover)
    (hskip : (p.inner.opts.skip_seal || insecure) = true)
    (hrun : run_with_hal oracle insecure p = .ok (r, log, q)) :
    r.seal' = [] ∧ log.sealWork = false := by
  obtain ⟨p1, hc, hj, hs, hw, hv, hvf⟩ := run_ok_shape hrun
  have i1 : p1.inner.opts.skip_seal = p.inner.opts.skip_seal :=
    (runConfigStep_inv hc).1
  have hskip1 : (p1.inner.opts.skip_seal || insecure) = true := by
    rw [i1]; exact hskip
  constructor
  · rw [hs, if_pos hskip1]
  · rw [hw, hskip1]
    rfl

/-- Witness for C5: a concrete `skip_seal` run yields an empty seal and does
no commit/finalize work. -/
theorem skip_seal_empty_seal_witness :
    sampleOutSkipSeal.1.seal' = [] ∧ sampleOutSkipSeal.2.1.sealWork = false := by
  exact skip_seal_empty_seal trueOracle false sampleProverSkipSeal
    sampleOutSkipSeal.1 sampleOutSkipSeal.2.1 sampleOutSkipSeal.2.2 rfl rfl

/-- Claim C6: configuration is finalized exactly once per prover:
`ProverOpts::finalize` on already-finalized options is the identity; the first
run merges any buffered raw input into stdin, finalizes, and marks the options
finalized; later runs with no new raw input succeed without touching the
state; adding raw input after the first run fails the precondition check. -/
theorem opts_finalize_once (o : ProverOpts) (p : Prover) (bytes : Bytes) :
    (o.finalized = true → o.finalize = o) ∧
    (p.inner.opts_finalized = false →
      runConfigStep p = .ok { p with inner := { p.inner with
        opts := (if p.inner.input = [] then p.inner.opts
                 else p.inner.opts.with_stdin p.inner.input).finalize,
        opts_finalized := true, input := [] } } ∧
      ((if p.inner.input = [] then p.inner.opts
        else p.inner.opts.with_stdin p.inner.input).finalize).finalized = true) ∧
    (p.inner.opts_finalized = true → p.inner.input = [] →
      runConfigStep p = .ok p) ∧
    (p.inner.opts_finalized = true → p.inner.input = [] → bytes ≠ [] →
      runConfigStep (add_input_u8_slice p bytes) = .error
        "Input may not be added after the prover starts proving using the add_input_* calls") := by
  refine ⟨fun h => ?_, fun h => ?_, fun h1 h2 => ?_, fun h1 h2 h3 => ?_⟩
  · simp [ProverOpts.finalize, h]
  · exact ⟨by simp [runConfigStep, h], (finalize_flags _).1⟩
  · simp [runConfigStep, h1, h2]
  · simp [runConfigStep, add_input_u8_slice, h1, h2, h3]

/-- Witness for C6: the first run of `sampleProver` finalizes; finalize is
idempotent on finalized options; adding input after the first run is
rejected. -/
theorem opts_finalize_once_witness :
    runConfigStep sampleProver = .ok { sampleProver with inner := { sampleProver.inner with
        opts := sampleProver.inner.opts.finalize,
        opts_finalized := true, input := [] } } ∧
    ProverOpts.without_defaults.finalize.finalize
        = ProverOpts.without_defaults.finalize ∧
    runConfigStep (add_input_u8_slice sampleProverStarted [1]) = .error
      "Input may not be added after the prover starts proving using the add_input_* calls" := by
  refine ⟨?_, ?_, ?_⟩
  · exact ((opts_finalize_once ProverOpts.without_defaults sampleProver []).2.1
      rfl).1
  · exact (opts_finalize_once ProverOpts.without_defaults.finalize sampleProver
      []).1 (finalize_flags ProverOpts.without_defaults).1
  · exact (opts_finalize_once ProverOpts.without_defaults sampleProverStarted
      [1]).2.2.2 rfl rfl (by decide)

/-- Claim C7: guest writes to the journal file descriptor are routed (by the
wiring `ProverImpl::new` installs) to the in-memory `Journal` buffer and to no
host sink; every `Journal` write only appends, leaving previously written bytes
unchanged; and a returned Receipt's journal is the accumulated buffer at
segment end. -/
theorem journal_append_only (opts : ProverOpts) (bytes : Bytes) (ws : WriteState)
    (oracle : HalOracle) (insecure : Bool) (p : Prover)
    (r : Receipt) (log : RunLog) (q : Prover)
    (hrun : run_with_hal oracle insecure p = .ok (r, log, q)) :
    posixWriteFd (ProverImpl.new opts).opts.io_state fileno_JOURNAL bytes ws
      = some { ws with journalBuf := ws.journalBuf ++ bytes } ∧
    (Journal_write ws.journalBuf bytes).take ws.journalBuf.length
      = ws.journalBuf ∧
    r.journal = List.foldl Journal_write p.inner.journal
      (oracle.exec p.pc p.imageRoot).journalWrites ∧
    r.journal.take p.inner.journal.length = p.inner.journal := by
  obtain ⟨p1, hc, hj, hs, hw, hv, hvf⟩ := run_ok_shape hrun
  obtain ⟨i1, i2, i3, i4, i5, i6⟩ := runConfigStep_inv hc
  have hj2 : r.journal = List.foldl Journal_write p.inner.journal
      (oracle.exec p.pc p.imageRoot).journalWrites := by
    rw [hj, i4, i5, i6]
  refine ⟨?_, ?_, hj2, ?_⟩
  · simp [posixWriteFd, ProverImpl.new, ProverOpts.with_write_fd,
      PosixIoState.with_write_fd, insertAssoc, lookupAssoc, Journal_write]
  · simp [Journal_write, List.take_left]
  · rw [hj2]
    exact foldl_journal_take _ _

/-- Witness for C7: the journal descriptor wiring appends `[7]` to an empty
journal buffer with nothing forwarded to a host sink, and the concrete run's
receipt journal is the accumulated guest journal write `[1, 2]`. -/
theorem journal_append_only_witness :
    posixWriteFd (ProverImpl.new ProverOpts.without_defaults).opts.io_state
        fileno_JOURNAL [7] ⟨[], []⟩ = some ⟨[7], []⟩ ∧
    sampleOut.1.journal = [1, 2] := by
  have h := journal_append_only ProverOpts.without_defaults [7] ⟨[], []⟩
    trueOracle false sampleProver sampleOut.1 sampleOut.2.1 sampleOut.2.2 rfl
  exact ⟨h.1, (h.2.2.1).trans (by decide)⟩

end Risc0
